import Mathlib

/-!
Verification of the startup orchestration layer of ddns-go (main.go).

The whole in-scope program is the single file main.go.  Its behavior is a
sequence of calls into external collaborators (logging, environment
variables, configuration cache, DNS utilities, the HTTP stack), driven by
command-line flags and by the outcomes of a few fallible external calls.

We embed a run of the program shallowly: the flags are a structure, each
fallible external call is an oracle recorded in an environment structure,
and the behavior of a run is the ordered list of side-effect events the
thread of control performs, together with how that thread ends.  The main
thread of control (func main) and the web-service thread of control (the
goroutine wrapping runWebServer) are modelled as separate traces, joined
by the fork event.
-/

/-- Command-line flags, after flag.Parse; defaults are supplied by the
caller of the model, matching the flag declarations in main.go. -/
structure Flags where
  versionFlag : Bool
  listen : String
  every : Int
  ipCacheTimes : Int
  configFilePath : String
  noWebService : Bool
  skipVerify : Bool
  customDNS : String
  newPassword : String
deriving DecidableEq

/-- Outcome of net.ResolveTCPAddr on the listen address, when it succeeds:
the fields of the address that main.go reads (autoOpenExplorer uses the
port, the global-unicast test on the IP, and the printed form). -/
structure TCPAddr where
  printed : String
  port : Nat
  isGlobalUnicast : Bool
deriving DecidableEq

/-- Oracles for the external collaborators touched during startup.  Each
field records the outcome the external world gives to one call site of
main.go.  config.GetConfigCached is a lazily-loaded singleton, so all its
call sites in one run observe the same outcome. -/
structure Env where
  goosAndroid : Bool
  resolveListen : Option TCPAddr
  configCachedOk : Bool
  inDocker : Bool
  netListenOk : Bool
  serveFails : Bool
deriving DecidableEq

/-- Side-effect events of the main thread of control, one per call site in
func main, in program order. -/
inductive Event
  | printVersion
  | fixTimezone
  | logFatalListen
  | setVersionEnv
  | setConfigPathEnv
  | getConfigCached
  | resetPassword
  | logConfigNotFound
  | setInsecureSkipVerify
  | setDNS
  | setIPCacheTimesEnv
  | compatibleConfig
  | initLogLang
  | forkWebService
  | initBackupDNS
  | waitInternet
  | runTimer
deriving DecidableEq

/-- Side-effect events of the web-service thread of control (runWebServer
and the supervising goroutine around it).  forkOpenExplorer records that
util.OpenExplorer is started on its own goroutine (go util.OpenExplorer),
so it can never block the serving thread. -/
inductive WebEvent
  | registerRoute (path : String) (sessionAuth : Bool)
  | logListen
  | bindSocket
  | logDockerHint
  | forkOpenExplorer (url : String)
  | serveConn
  | logWebError
  | sleepOneMinute
  | osExit1
deriving DecidableEq

/-- How the main thread of control ends: a normal return from main (the
process exits with status 0), a log.Fatalf (non-zero status), or never
(dns.RunTimer loops forever). -/
inductive ExitStatus
  | success
  | fatal
  | runsForever
deriving DecidableEq

/-- Which error runWebServer returns: the net.Listen error path or the
http.Serve error path. -/
inductive WebFailure
  | bind
  | serve
deriving DecidableEq

/-- Route table registered by runWebServer, in registration order; the
Bool is true for routes wrapped in web.Auth (session required) and false
for routes wrapped in web.AuthAssert (unauthenticated access allowed). -/
def routeTable : List (String × Bool) :=
  [("/static/", false), ("/favicon.ico", false), ("/login", false),
   ("/loginFunc", false), ("/", true), ("/save", true), ("/logs", true),
   ("/clearLog", true), ("/webhookTest", true), ("/logout", true)]

/-- Embedding of autoOpenExplorer in main.go: with no cached configuration
it either logs the Docker hint or forks a browser-opening goroutine on the
URL derived from the resolved listen address; with a cached configuration
it does nothing.  It returns no error and performs no blocking call. -/
def autoOpenExplorer (env : Env) : List WebEvent :=
  if env.configCachedOk then []
  else if env.inDocker then [WebEvent.logDockerHint]
  else
    match env.resolveListen with
    | none => []
    | some addr =>
      let url :=
        if addr.isGlobalUnicast then "http://" ++ addr.printed
        else "http://127.0.0.1:" ++ toString addr.port
      [WebEvent.forkOpenExplorer url]

/-- Embedding of runWebServer in main.go: register the route table, log
the listen address, bind the socket (returning the bind error on failure),
run the convenience action, then serve.  The result is some failure when
the function returns an error, and none when http.Serve never returns. -/
def runWebServer (env : Env) : List WebEvent × Option WebFailure :=
  let reg := routeTable.map (fun r => WebEvent.registerRoute r.1 r.2) ++
    [WebEvent.logListen]
  if env.netListenOk then
    let evs := reg ++ [WebEvent.bindSocket] ++ autoOpenExplorer env ++
      [WebEvent.serveConn]
    if env.serveFails then (evs, some WebFailure.serve) else (evs, none)
  else
    (reg, some WebFailure.bind)

/-- Embedding of the supervising goroutine forked in main: it calls
runWebServer, and when that returns an error it logs it, sleeps one
minute, and exits the process with status 1 (the second component); when
runWebServer never returns, the goroutine never acts. -/
def webSupervisor (env : Env) : List WebEvent × Option Nat :=
  match runWebServer env with
  | (evs, some _) =>
    (evs ++ [WebEvent.logWebError, WebEvent.sleepOneMinute, WebEvent.osExit1],
      some 1)
  | (evs, none) => (evs, none)

/-- Embedding of func main in main.go: the ordered list of side-effect
events of the main thread of control and how that thread ends.  Each
branch mirrors one if-statement of the source, in source order. -/
def mainRun (f : Flags) (env : Env) : List Event × ExitStatus :=
  if f.versionFlag then ([Event.printVersion], ExitStatus.success)
  else
    let t0 : List Event := if env.goosAndroid then [Event.fixTimezone] else []
    match env.resolveListen with
    | none => (t0 ++ [Event.logFatalListen], ExitStatus.fatal)
    | some _ =>
      let t1 := t0 ++ [Event.setVersionEnv] ++
        (if f.configFilePath ≠ "" then [Event.setConfigPathEnv] else [])
      if f.newPassword ≠ "" then
        if env.configCachedOk then
          (t1 ++ [Event.getConfigCached, Event.resetPassword],
            ExitStatus.success)
        else
          (t1 ++ [Event.getConfigCached, Event.logConfigNotFound],
            ExitStatus.success)
      else
        let t2 := t1 ++
          (if f.skipVerify then [Event.setInsecureSkipVerify] else []) ++
          (if f.customDNS ≠ "" then [Event.setDNS] else []) ++
          [Event.setIPCacheTimesEnv, Event.getConfigCached,
            Event.compatibleConfig, Event.initLogLang]
        let t3 := t2 ++ (if f.noWebService then [] else [Event.forkWebService])
        (t3 ++ [Event.initBackupDNS, Event.waitInternet, Event.runTimer],
          ExitStatus.runsForever)

/-- Events of the web-service thread of control in a whole run: the
supervisor goroutine runs exactly when main forks it, so a run whose main
trace has no fork event has an empty web trace. -/
def processWebEvents (f : Flags) (env : Env) : List WebEvent :=
  if Event.forkWebService ∈ (mainRun f env).1 then (webSupervisor env).1
  else []

/-- Convenience actions of autoOpenExplorer: the Docker hint log and the
goroutine fork opening the browser.  Anything else (exiting, logging an
error, a blocking call) is not a convenience action. -/
def isConvenience : WebEvent → Bool
  | WebEvent.logDockerHint => true
  | WebEvent.forkOpenExplorer _ => true
  | _ => false

/-- Flags with every default of main.go, used to build concrete runs. -/
def defaultFlags : Flags :=
  { versionFlag := false, listen := ":9876", every := 300, ipCacheTimes := 5,
    configFilePath := "", noWebService := false, skipVerify := false,
    customDNS := "", newPassword := "" }

/-- Environment of an ordinary host run: the listen address resolves, a
cached configuration exists, the socket binds, and serving never fails. -/
def defaultEnv : Env :=
  { goosAndroid := false,
    resolveListen :=
      some ({ printed := ":9876", port := 9876, isGlobalUnicast := false }),
    configCachedOk := true, inDocker := false, netListenOk := true,
    serveFails := false }

/-- Concrete run refuting claim C2: no reset-password mode, the cached
configuration fails to load, and every later flag is at its default. -/
def noConfigEnv : Env :=
  { defaultEnv with configCachedOk := false }

/-- Flags differing from the defaults by every optional behavior being
requested: a custom config path, no-web off, skip-verify on, a custom DNS
server, and a reset password.  Used to exercise the reset mode. -/
def resetFlags : Flags :=
  { defaultFlags with
    configFilePath := "/tmp/cfg.yaml", skipVerify := true,
    customDNS := "8.8.8.8", newPassword := "secret" }

/-- Environment whose listen address does not resolve. -/
def badListenEnv : Env :=
  { defaultEnv with resolveListen := none }

/-- Flags for an ordinary run with a custom configuration file path. -/
def cfgFlags : Flags :=
  { defaultFlags with
    configFilePath := "/etc/ddns-go.yaml" }

/-- Flags disabling the web service. -/
def nowebFlags : Flags :=
  { defaultFlags with
    noWebService := true }

/-- Environment where the socket bind fails. -/
def bindFailEnv : Env :=
  { defaultEnv with netListenOk := false }

/-- Index of the first occurrence of an event in a trace (length of the
trace when absent). -/
def idxOf (a : Event) : List Event → Nat
  | [] => 0
  | e :: t => if e = a then 0 else idxOf a t + 1

/-- Strict ordering of two events in a trace: both occur and the first
occurrence of one is before the first occurrence of the other. -/
def precedes (t : List Event) (a b : Event) : Prop :=
  a ∈ t ∧ b ∈ t ∧ idxOf a t < idxOf b t

lemma mem_ite_singleton {α : Type} (x a : α) (c : Prop) [Decidable c] :
    (x ∈ if c then [a] else []) ↔ c ∧ x = a := by
  split <;> simp_all

lemma mem_ite_singleton_else {α : Type} (x a : α) (c : Prop) [Decidable c] :
    (x ∈ if c then [] else [a]) ↔ ¬c ∧ x = a := by
  split <;> simp_all

lemma mainRun_version (f : Flags) (env : Env) (hv : f.versionFlag = true) :
    mainRun f env = ([Event.printVersion], ExitStatus.success) := by
  simp [mainRun, hv]

lemma mainRun_badListen (f : Flags) (env : Env) (hv : f.versionFlag = false)
    (hr : env.resolveListen = none) :
    mainRun f env =
      ((if env.goosAndroid then [Event.fixTimezone] else []) ++
        [Event.logFatalListen], ExitStatus.fatal) := by
  simp [mainRun, hv, hr]

lemma mainRun_reset (f : Flags) (env : Env) (hv : f.versionFlag = false)
    (a : TCPAddr) (hr : env.resolveListen = some a)
    (hp : f.newPassword ≠ "") :
    mainRun f env =
      ((if env.goosAndroid then [Event.fixTimezone] else []) ++
        [Event.setVersionEnv] ++
        (if f.configFilePath ≠ "" then [Event.setConfigPathEnv] else []) ++
        (if env.configCachedOk then
          [Event.getConfigCached, Event.resetPassword]
         else [Event.getConfigCached, Event.logConfigNotFound]),
        ExitStatus.success) := by
  by_cases hc : env.configCachedOk <;>
    simp [mainRun, hv, hr, hp, hc, List.append_assoc]

lemma mainRun_normal (f : Flags) (env : Env) (hv : f.versionFlag = false)
    (a : TCPAddr) (hr : env.resolveListen = some a)
    (hp : f.newPassword = "") :
    mainRun f env =
      ((if env.goosAndroid then [Event.fixTimezone] else []) ++
        [Event.setVersionEnv] ++
        (if f.configFilePath ≠ "" then [Event.setConfigPathEnv] else []) ++
        (if f.skipVerify then [Event.setInsecureSkipVerify] else []) ++
        (if f.customDNS ≠ "" then [Event.setDNS] else []) ++
        [Event.setIPCacheTimesEnv, Event.getConfigCached,
          Event.compatibleConfig, Event.initLogLang] ++
        (if f.noWebService then [] else [Event.forkWebService]) ++
        [Event.initBackupDNS, Event.waitInternet, Event.runTimer],
        ExitStatus.runsForever) := by
  simp [mainRun, hv, hr, hp, List.append_assoc]

/-- C1: for every malformed listen-address string passed via -l, the
process halts at the address-validation step before any other side
effect: no environment signal is written, no configuration is loaded, no
network probe occurs, the web-service thread is never forked so no socket
is opened and no route is registered, and the run ends fatally. -/
theorem C1_invalid_listen_halts_first (f : Flags) (env : Env)
    (hv : f.versionFlag = false) (hr : env.resolveListen = none) :
    (mainRun f env).2 = ExitStatus.fatal ∧
    Event.setVersionEnv ∉ (mainRun f env).1 ∧
    Event.setConfigPathEnv ∉ (mainRun f env).1 ∧
    Event.setIPCacheTimesEnv ∉ (mainRun f env).1 ∧
    Event.getConfigCached ∉ (mainRun f env).1 ∧
    Event.initBackupDNS ∉ (mainRun f env).1 ∧
    Event.waitInternet ∉ (mainRun f env).1 ∧
    Event.forkWebService ∉ (mainRun f env).1 ∧
    Event.runTimer ∉ (mainRun f env).1 ∧
    processWebEvents f env = [] := by
  have h := mainRun_badListen f env hv hr
  cases ha : env.goosAndroid <;>
    simp [processWebEvents, h, ha]

/-- Witness for C1 at a concrete malformed-address run. -/
theorem C1_witness :
    (mainRun defaultFlags badListenEnv).2 = ExitStatus.fatal ∧
    Event.setVersionEnv ∉ (mainRun defaultFlags badListenEnv).1 ∧
    Event.setConfigPathEnv ∉ (mainRun defaultFlags badListenEnv).1 ∧
    Event.setIPCacheTimesEnv ∉ (mainRun defaultFlags badListenEnv).1 ∧
    Event.getConfigCached ∉ (mainRun defaultFlags badListenEnv).1 ∧
    Event.initBackupDNS ∉ (mainRun defaultFlags badListenEnv).1 ∧
    Event.waitInternet ∉ (mainRun defaultFlags badListenEnv).1 ∧
    Event.forkWebService ∉ (mainRun defaultFlags badListenEnv).1 ∧
    Event.runTimer ∉ (mainRun defaultFlags badListenEnv).1 ∧
    processWebEvents defaultFlags badListenEnv = [] :=
  C1_invalid_listen_halts_first defaultFlags badListenEnv rfl rfl

/-- Flags requesting the version print. -/
def versionFlags : Flags :=
  { defaultFlags with
    versionFlag := true }

/-- C6: running with -v alone prints only the version string and exits
successfully; the whole main trace is the single print event, so no
filesystem, environment, network, or socket operation occurs, and the
web-service thread is never forked. -/
theorem C6_version_prints_only (f : Flags) (env : Env)
    (hv : f.versionFlag = true) (_hc : env.configCachedOk = false) :
    mainRun f env = ([Event.printVersion], ExitStatus.success) ∧
    processWebEvents f env = [] := by
  have h := mainRun_version f env hv
  simp [processWebEvents, h]

/-- Witness for C6 at a concrete run with no config file present. -/
theorem C6_witness :
    mainRun versionFlags noConfigEnv =
      ([Event.printVersion], ExitStatus.success) ∧
    processWebEvents versionFlags noConfigEnv = [] :=
  C6_version_prints_only versionFlags noConfigEnv rfl rfl

/-- C3: with a non-empty -resetPassword and a cached configuration, the
run performs exactly one password mutation, exits successfully, and never
starts the web service or the update loop. -/
theorem C3_reset_one_mutation_then_exit (f : Flags) (env : Env)
    (hv : f.versionFlag = false) (a : TCPAddr)
    (hr : env.resolveListen = some a) (hp : f.newPassword ≠ "")
    (hc : env.configCachedOk = true) :
    (mainRun f env).1.count Event.resetPassword = 1 ∧
    (mainRun f env).2 = ExitStatus.success ∧
    Event.forkWebService ∉ (mainRun f env).1 ∧
    Event.waitInternet ∉ (mainRun f env).1 ∧
    Event.runTimer ∉ (mainRun f env).1 ∧
    processWebEvents f env = [] := by
  have h := mainRun_reset f env hv a hr hp
  rw [if_pos hc] at h
  cases ha : env.goosAndroid <;> by_cases hcf : f.configFilePath = "" <;>
    simp [processWebEvents, h, ha, hcf]

/-- Witness for C3 at a concrete reset-mode run with a configuration. -/
theorem C3_witness :
    (mainRun resetFlags defaultEnv).1.count Event.resetPassword = 1 ∧
    (mainRun resetFlags defaultEnv).2 = ExitStatus.success ∧
    Event.forkWebService ∉ (mainRun resetFlags defaultEnv).1 ∧
    Event.waitInternet ∉ (mainRun resetFlags defaultEnv).1 ∧
    Event.runTimer ∉ (mainRun resetFlags defaultEnv).1 ∧
    processWebEvents resetFlags defaultEnv = [] :=
  C3_reset_one_mutation_then_exit resetFlags defaultEnv rfl
    { printed := ":9876", port := 9876, isGlobalUnicast := false } rfl
    (by decide) rfl

/-- C7: with a non-empty -resetPassword and no cached configuration, the
run logs the diagnostic and exits successfully; no password mutation, no
configuration migration, no global-switch mutation, no cache-times
signal, no web service and no update loop occur.  The version and
config-path environment signals are bootstrap propagation preceding mode
dispatch and are outside this claim. -/
theorem C7_reset_no_config_clean_exit (f : Flags) (env : Env)
    (hv : f.versionFlag = false) (a : TCPAddr)
    (hr : env.resolveListen = some a) (hp : f.newPassword ≠ "")
    (hc : env.configCachedOk = false) :
    Event.logConfigNotFound ∈ (mainRun f env).1 ∧
    Event.resetPassword ∉ (mainRun f env).1 ∧
    Event.compatibleConfig ∉ (mainRun f env).1 ∧
    Event.setInsecureSkipVerify ∉ (mainRun f env).1 ∧
    Event.setDNS ∉ (mainRun f env).1 ∧
    Event.setIPCacheTimesEnv ∉ (mainRun f env).1 ∧
    Event.forkWebService ∉ (mainRun f env).1 ∧
    Event.waitInternet ∉ (mainRun f env).1 ∧
    Event.runTimer ∉ (mainRun f env).1 ∧
    (mainRun f env).2 = ExitStatus.success ∧
    processWebEvents f env = [] := by
  have h := mainRun_reset f env hv a hr hp
  cases ha : env.goosAndroid <;> by_cases hcf : f.configFilePath = "" <;>
    simp [processWebEvents, h, ha, hcf, hc]

/-- Witness for C7 at a concrete reset-mode run without configuration. -/
theorem C7_witness :
    Event.logConfigNotFound ∈ (mainRun resetFlags noConfigEnv).1 ∧
    Event.resetPassword ∉ (mainRun resetFlags noConfigEnv).1 ∧
    Event.compatibleConfig ∉ (mainRun resetFlags noConfigEnv).1 ∧
    Event.setInsecureSkipVerify ∉ (mainRun resetFlags noConfigEnv).1 ∧
    Event.setDNS ∉ (mainRun resetFlags noConfigEnv).1 ∧
    Event.setIPCacheTimesEnv ∉ (mainRun resetFlags noConfigEnv).1 ∧
    Event.forkWebService ∉ (mainRun resetFlags noConfigEnv).1 ∧
    Event.waitInternet ∉ (mainRun resetFlags noConfigEnv).1 ∧
    Event.runTimer ∉ (mainRun resetFlags noConfigEnv).1 ∧
    (mainRun resetFlags noConfigEnv).2 = ExitStatus.success ∧
    processWebEvents resetFlags noConfigEnv = [] :=
  C7_reset_no_config_clean_exit resetFlags noConfigEnv rfl
    { printed := ":9876", port := 9876, isGlobalUnicast := false } rfl
    (by decide) rfl

/-- C10: in reset-password mode the run returns before the global
switches are reached: the skip-certificate-verification switch, the
custom-DNS override, and the cache-times environment signal are never
applied, whatever the values of -skipVerify, -dns and -cacheTimes and
whether or not a cached configuration exists. -/
theorem C10_reset_mode_frame (f : Flags) (env : Env)
    (hv : f.versionFlag = false) (a : TCPAddr)
    (hr : env.resolveListen = some a) (hp : f.newPassword ≠ "") :
    Event.setInsecureSkipVerify ∉ (mainRun f env).1 ∧
    Event.setDNS ∉ (mainRun f env).1 ∧
    Event.setIPCacheTimesEnv ∉ (mainRun f env).1 ∧
    (mainRun f env).2 = ExitStatus.success := by
  have h := mainRun_reset f env hv a hr hp
  cases ha : env.goosAndroid <;> by_cases hcf : f.configFilePath = "" <;>
    cases hcc : env.configCachedOk <;> simp [h, ha, hcf, hcc]

/-- Witness for C10 at a concrete reset-mode run where -skipVerify and
-dns are both supplied. -/
theorem C10_witness :
    Event.setInsecureSkipVerify ∉ (mainRun resetFlags defaultEnv).1 ∧
    Event.setDNS ∉ (mainRun resetFlags defaultEnv).1 ∧
    Event.setIPCacheTimesEnv ∉ (mainRun resetFlags defaultEnv).1 ∧
    (mainRun resetFlags defaultEnv).2 = ExitStatus.success :=
  C10_reset_mode_frame resetFlags defaultEnv rfl
    { printed := ":9876", port := 9876, isGlobalUnicast := false } rfl
    (by decide)

/-- Counterexample to C2: a concrete ordinary run (no reset-password
mode) whose cached-configuration load fails, yet the run continues into
migration, forks the web service, and enters the update loop forever.
The load error at the bootstrap call site is discarded by the code. -/
theorem C2_counterexample_load_failure_not_terminal :
    defaultFlags.newPassword = "" ∧
    noConfigEnv.configCachedOk = false ∧
    Event.getConfigCached ∈ (mainRun defaultFlags noConfigEnv).1 ∧
    Event.compatibleConfig ∈ (mainRun defaultFlags noConfigEnv).1 ∧
    Event.forkWebService ∈ (mainRun defaultFlags noConfigEnv).1 ∧
    Event.runTimer ∈ (mainRun defaultFlags noConfigEnv).1 ∧
    (mainRun defaultFlags noConfigEnv).2 = ExitStatus.runsForever := by
  decide

/-- C2 as amended: a failure to load the cached configuration during
bootstrap, outside reset-password mode, is ignored rather than terminal:
the error is discarded and the run continues into migration, web-service
startup when enabled, and the update loop. -/
theorem C2_amended_load_failure_ignored (f : Flags) (env : Env)
    (hv : f.versionFlag = false) (a : TCPAddr)
    (hr : env.resolveListen = some a) (hp : f.newPassword = "")
    (_hc : env.configCachedOk = false) :
    Event.getConfigCached ∈ (mainRun f env).1 ∧
    Event.compatibleConfig ∈ (mainRun f env).1 ∧
    (f.noWebService = false → Event.forkWebService ∈ (mainRun f env).1) ∧
    Event.waitInternet ∈ (mainRun f env).1 ∧
    Event.runTimer ∈ (mainRun f env).1 ∧
    (mainRun f env).2 = ExitStatus.runsForever := by
  have h := mainRun_normal f env hv a hr hp
  simp [h, mem_ite_singleton, mem_ite_singleton_else]

/-- Witness for the amended C2 at a concrete run with a failing load. -/
theorem C2_amended_witness :
    Event.getConfigCached ∈ (mainRun defaultFlags noConfigEnv).1 ∧
    Event.compatibleConfig ∈ (mainRun defaultFlags noConfigEnv).1 ∧
    Event.forkWebService ∈ (mainRun defaultFlags noConfigEnv).1 ∧
    Event.waitInternet ∈ (mainRun defaultFlags noConfigEnv).1 ∧
    Event.runTimer ∈ (mainRun defaultFlags noConfigEnv).1 ∧
    (mainRun defaultFlags noConfigEnv).2 = ExitStatus.runsForever := by
  obtain ⟨h1, h2, h3, h4, h5, h6⟩ :=
    C2_amended_load_failure_ignored defaultFlags noConfigEnv rfl
      { printed := ":9876", port := 9876, isGlobalUnicast := false } rfl rfl rfl
  exact ⟨h1, h2, h3 rfl, h4, h5, h6⟩

lemma fork_not_mem_of_noweb (f : Flags) (env : Env)
    (hw : f.noWebService = true) :
    Event.forkWebService ∉ (mainRun f env).1 := by
  by_cases hv : f.versionFlag = true
  · simp [mainRun_version f env hv]
  · have hv2 : f.versionFlag = false := by simpa using hv
    cases hr : env.resolveListen with
    | none =>
      cases ha : env.goosAndroid <;>
        simp [mainRun_badListen f env hv2 hr, ha]
    | some a =>
      by_cases hp : f.newPassword = ""
      · cases ha : env.goosAndroid <;> by_cases hcf : f.configFilePath = "" <;>
          cases hs : f.skipVerify <;> by_cases hd : f.customDNS = "" <;>
            simp [mainRun_normal f env hv2 a hr hp, ha, hcf, hs, hd, hw]
      · cases ha : env.goosAndroid <;> by_cases hcf : f.configFilePath = "" <;>
          cases hcc : env.configCachedOk <;>
            simp [mainRun_reset f env hv2 a hr hp, ha, hcf, hcc]

/-- C5: whenever -noweb is set, the web-service thread is never forked,
so for every combination of the other flags no listening socket is ever
bound and no HTTP route is registered. -/
theorem C5_noweb_never_binds (f : Flags) (env : Env)
    (hw : f.noWebService = true) :
    Event.forkWebService ∉ (mainRun f env).1 ∧
    processWebEvents f env = [] ∧
    WebEvent.bindSocket ∉ processWebEvents f env ∧
    (∀ p b, WebEvent.registerRoute p b ∉ processWebEvents f env) := by
  have h := fork_not_mem_of_noweb f env hw
  refine ⟨h, ?_, ?_, ?_⟩ <;> simp [processWebEvents, h]

/-- Witness for C5 at a concrete no-web run. -/
theorem C5_witness :
    Event.forkWebService ∉ (mainRun nowebFlags defaultEnv).1 ∧
    processWebEvents nowebFlags defaultEnv = [] ∧
    WebEvent.bindSocket ∉ processWebEvents nowebFlags defaultEnv ∧
    (∀ p b, WebEvent.registerRoute p b ∉ processWebEvents nowebFlags defaultEnv) :=
  C5_noweb_never_binds nowebFlags defaultEnv rfl

/-- C8: in a run with the web service enabled, the web-service thread is
forked only after the version, config-path and cache-times signals have
been written and the configuration migration has completed; and the
update scheduler starts only after the connectivity gate step. -/
theorem C8_fork_after_bootstrap (f : Flags) (env : Env)
    (hv : f.versionFlag = false) (a : TCPAddr)
    (hr : env.resolveListen = some a) (hp : f.newPassword = "")
    (hw : f.noWebService = false) :
    precedes (mainRun f env).1 Event.setVersionEnv Event.forkWebService ∧
    (f.configFilePath ≠ "" →
      precedes (mainRun f env).1 Event.setConfigPathEnv
        Event.forkWebService) ∧
    precedes (mainRun f env).1 Event.setIPCacheTimesEnv
      Event.forkWebService ∧
    precedes (mainRun f env).1 Event.compatibleConfig
      Event.forkWebService ∧
    precedes (mainRun f env).1 Event.forkWebService Event.waitInternet ∧
    precedes (mainRun f env).1 Event.waitInternet Event.runTimer := by
  have h := mainRun_normal f env hv a hr hp
  cases ha : env.goosAndroid <;> by_cases hcf : f.configFilePath = "" <;>
    cases hs : f.skipVerify <;> by_cases hd : f.customDNS = "" <;>
      simp [h, ha, hcf, hs, hd, hw, precedes, idxOf]

/-- Witness for C8 at a concrete web-enabled run with a config path. -/
theorem C8_witness :
    precedes (mainRun cfgFlags defaultEnv).1 Event.setVersionEnv
      Event.forkWebService ∧
    precedes (mainRun cfgFlags defaultEnv).1 Event.setConfigPathEnv
      Event.forkWebService ∧
    precedes (mainRun cfgFlags defaultEnv).1 Event.setIPCacheTimesEnv
      Event.forkWebService ∧
    precedes (mainRun cfgFlags defaultEnv).1 Event.compatibleConfig
      Event.forkWebService ∧
    precedes (mainRun cfgFlags defaultEnv).1 Event.forkWebService
      Event.waitInternet ∧
    precedes (mainRun cfgFlags defaultEnv).1 Event.waitInternet
      Event.runTimer := by
  obtain ⟨h1, h2, h3, h4, h5, h6⟩ :=
    C8_fork_after_bootstrap cfgFlags defaultEnv rfl
      { printed := ":9876", port := 9876, isGlobalUnicast := false } rfl rfl rfl
  exact ⟨h1, h2 (by decide), h3, h4, h5, h6⟩

lemma autoOpen_all_convenience (env : Env) :
    ∀ e ∈ autoOpenExplorer env, isConvenience e = true := by
  intro e he
  rcases env with ⟨g, r, c, d, n, s⟩
  cases c <;> cases d <;> cases r <;>
    simp [autoOpenExplorer] at he <;> simp [he, isConvenience]

lemma osExit1_not_in_autoOpen (env : Env) :
    WebEvent.osExit1 ∉ autoOpenExplorer env := by
  intro hm
  have h := autoOpen_all_convenience env _ hm
  simp [isConvenience] at h

lemma logWebError_not_in_autoOpen (env : Env) :
    WebEvent.logWebError ∉ autoOpenExplorer env := by
  intro hm
  have h := autoOpen_all_convenience env _ hm
  simp [isConvenience] at h

lemma runWebServer_result (env : Env) :
    (runWebServer env).2 =
      (if env.netListenOk = true then
        (if env.serveFails = true then some WebFailure.serve else none)
       else some WebFailure.bind) := by
  by_cases hn : env.netListenOk = true <;>
    by_cases hs : env.serveFails = true <;> simp [runWebServer, hn, hs]

lemma osExit1_not_in_runWebServer (env : Env) :
    WebEvent.osExit1 ∉ (runWebServer env).1 := by
  have hauto := osExit1_not_in_autoOpen env
  by_cases hn : env.netListenOk = true <;>
    by_cases hs : env.serveFails = true <;>
      simp [runWebServer, hn, hs, routeTable, hauto]

lemma webSupervisor_of_failure (env : Env)
    (h : (runWebServer env).2.isSome = true) :
    webSupervisor env =
      ((runWebServer env).1 ++
        [WebEvent.logWebError, WebEvent.sleepOneMinute, WebEvent.osExit1],
       some 1) := by
  obtain ⟨w, hw2⟩ := Option.isSome_iff_exists.mp h
  have heq : runWebServer env = ((runWebServer env).1, some w) := by
    rw [← hw2]
  rw [webSupervisor, heq]

/-- C4: on every bind or serve failure of the web service the error is
returned from runWebServer to the supervising goroutine (the server
routine itself never exits the process), the supervisor logs the error,
sleeps for the one-minute grace period, and only then exits with status
1; the main thread meanwhile forks the web service and still reaches the
connectivity gate and the update loop, which never returns. -/
theorem C4_web_failure_supervised (f : Flags) (env : Env)
    (hv : f.versionFlag = false) (a : TCPAddr)
    (hr : env.resolveListen = some a) (hp : f.newPassword = "")
    (hw : f.noWebService = false)
    (hfail : env.netListenOk = false ∨ env.serveFails = true) :
    (runWebServer env).2.isSome = true ∧
    WebEvent.osExit1 ∉ (runWebServer env).1 ∧
    (webSupervisor env).1 =
      (runWebServer env).1 ++
        [WebEvent.logWebError, WebEvent.sleepOneMinute, WebEvent.osExit1] ∧
    (webSupervisor env).2 = some 1 ∧
    Event.forkWebService ∈ (mainRun f env).1 ∧
    Event.waitInternet ∈ (mainRun f env).1 ∧
    Event.runTimer ∈ (mainRun f env).1 ∧
    (mainRun f env).2 = ExitStatus.runsForever := by
  have hres : (runWebServer env).2.isSome = true := by
    rw [runWebServer_result]
    rcases hfail with h1 | h1 <;> by_cases hn : env.netListenOk = true <;>
      simp [h1, hn]
  have hsup := webSupervisor_of_failure env hres
  have hmain := mainRun_normal f env hv a hr hp
  refine ⟨hres, osExit1_not_in_runWebServer env, ?_, ?_, ?_, ?_, ?_, ?_⟩
  · rw [hsup]
  · rw [hsup]
  · simp [hmain, hw, mem_ite_singleton, mem_ite_singleton_else]
  · simp [hmain]
  · simp [hmain]
  · simp [hmain]

/-- Witness for C4 at a concrete run whose socket bind fails. -/
theorem C4_witness :
    (runWebServer bindFailEnv).2.isSome = true ∧
    WebEvent.osExit1 ∉ (runWebServer bindFailEnv).1 ∧
    (webSupervisor bindFailEnv).1 =
      (runWebServer bindFailEnv).1 ++
        [WebEvent.logWebError, WebEvent.sleepOneMinute, WebEvent.osExit1] ∧
    (webSupervisor bindFailEnv).2 = some 1 ∧
    Event.forkWebService ∈ (mainRun defaultFlags bindFailEnv).1 ∧
    Event.waitInternet ∈ (mainRun defaultFlags bindFailEnv).1 ∧
    Event.runTimer ∈ (mainRun defaultFlags bindFailEnv).1 ∧
    (mainRun defaultFlags bindFailEnv).2 = ExitStatus.runsForever :=
  C4_web_failure_supervised defaultFlags bindFailEnv rfl
    { printed := ":9876", port := 9876, isGlobalUnicast := false } rfl rfl rfl
    (Or.inl rfl)

/-- C9: the convenience action after a successful bind is harmless: with
a cached configuration it does nothing at all; without one its events are
only the Docker hint log or the goroutine fork opening the browser (so it
neither exits, logs an error, nor performs a blocking call); and the
error result of runWebServer is a function of the bind and serve outcomes
alone, so the convenience action never propagates a failure to the
caller of the server routine. -/
theorem C9_convenience_action_harmless (env : Env) :
    (env.configCachedOk = true → autoOpenExplorer env = []) ∧
    (∀ e ∈ autoOpenExplorer env, isConvenience e = true) ∧
    WebEvent.osExit1 ∉ autoOpenExplorer env ∧
    WebEvent.logWebError ∉ autoOpenExplorer env ∧
    (runWebServer env).2 =
      (if env.netListenOk = true then
        (if env.serveFails = true then some WebFailure.serve else none)
       else some WebFailure.bind) :=
  ⟨fun hc => by simp [autoOpenExplorer, hc],
   autoOpen_all_convenience env,
   osExit1_not_in_autoOpen env,
   logWebError_not_in_autoOpen env,
   runWebServer_result env⟩

/-- Witness for C9 at a concrete run with a cached configuration. -/
theorem C9_witness :
    autoOpenExplorer defaultEnv = [] ∧
    (runWebServer defaultEnv).2 =
      (if defaultEnv.netListenOk = true then
        (if defaultEnv.serveFails = true then some WebFailure.serve
         else none)
       else some WebFailure.bind) :=
  ⟨(C9_convenience_action_harmless defaultEnv).1 rfl,
   (C9_convenience_action_harmless defaultEnv).2.2.2.2⟩
